import Mathlib

/-!
Verification of the two-stage legal-document workflow (`app/agents/graph.py`,
`app/agents/nodes.py`, `app/agents/state.py`).

Text is modelled as `List Char`; the Python string operations used by the code
(`strip`, `split`, `startswith`, `replace`, `lstrip` with a character set,
`lower`, slicing) are embedded below with ASCII-faithful character classes.
Floating-point ratios are modelled over `ℚ` (the code compares an exact
division against the dyadic constant 0.5). External collaborators (the Groq
model call, the Supabase insert) are modelled as explicit parameters /
explicit result components: each node takes the model outcome as an
`Except Unit Str` argument and reports whether the model was invoked and which
record (if any) it attempted to persist.
-/

/-- Text, modelled as a list of characters. -/
abbrev Str := List Char

/-- Coercion from a string literal to the character-list model. -/
def S (s : String) : Str := s.data

/-- Python `str.isspace` / default `strip` whitespace set (ASCII). -/
def pyIsSpace (c : Char) : Bool :=
  c = ' ' || c = '\t' || c = '\n' || c = '\r' || c = '\x0b' || c = '\x0c'

/-- Python `str.lstrip()` (no argument: whitespace). -/
def pyLStrip (s : Str) : Str := s.dropWhile pyIsSpace

/-- Python `str.rstrip()` (no argument: whitespace). -/
def pyRStrip (s : Str) : Str := (s.reverse.dropWhile pyIsSpace).reverse

/-- Python `str.strip()` (no argument: whitespace on both ends). -/
def pyStrip (s : Str) : Str := pyRStrip (pyLStrip s)

/-- Python `str.lstrip(chars)`: drop leading characters belonging to `cs`. -/
def pyLStripChars (cs : Str) (s : Str) : Str := s.dropWhile (fun c => cs.contains c)

/-- Python `str.rstrip(chars)`. -/
def pyRStripChars (cs : Str) (s : Str) : Str :=
  (s.reverse.dropWhile (fun c => cs.contains c)).reverse

/-- Python `str.strip(chars)`. -/
def pyStripChars (cs : Str) (s : Str) : Str := pyRStripChars cs (pyLStripChars cs s)

/-- Python `str.startswith(p)`. -/
def pyStartsWith (p s : Str) : Bool := p.isPrefixOf s

/-- Python `str.lower()` (ASCII case fold, matching the ASCII inputs used here). -/
def pyLower (s : Str) : Str := s.map Char.toLower

/-- Python `c.isalnum() or c.isspace()` (ASCII). -/
def pyIsAlnumOrSpace (c : Char) : Bool := c.isAlphanum || pyIsSpace c

/-- Helper for Python `str.split()` (no argument): accumulates the current word. -/
def pySplitWsAux : Str → Str → List Str
  | [], acc => if acc = [] then [] else [acc.reverse]
  | c :: rest, acc =>
    if pyIsSpace c then
      if acc = [] then pySplitWsAux rest []
      else acc.reverse :: pySplitWsAux rest []
    else pySplitWsAux rest (c :: acc)

/-- Python `str.split()` with no argument: split on whitespace runs, no empties. -/
def pySplitWs (s : Str) : List Str := pySplitWsAux s []

/-- Helper for Python `str.split(sep)` with a one-character separator. -/
def pySplitOnAux (sep : Char) : Str → Str → List Str
  | [], acc => [acc.reverse]
  | c :: rest, acc =>
    if c = sep then acc.reverse :: pySplitOnAux sep rest []
    else pySplitOnAux sep rest (c :: acc)

/-- Python `str.split(sep)` for a one-character separator: keeps empty pieces. -/
def pySplitOn (sep : Char) (s : Str) : List Str := pySplitOnAux sep s []

/-- Fuel-based helper for `pyRemoveAll`; each step consumes at least one
character, so fuel equal to the length of the text is always sufficient and the
zero-fuel fallback is never reached. -/
def pyRemoveAllAux (pat : Str) : Nat → Str → Str
  | _, [] => []
  | 0, s => s
  | fuel + 1, c :: rest =>
    if pat ≠ [] ∧ pat.isPrefixOf (c :: rest) then
      pyRemoveAllAux pat fuel ((c :: rest).drop pat.length)
    else
      c :: pyRemoveAllAux pat fuel rest

/-- Python `s.replace(pat, "")`: delete every (non-overlapping, left-to-right)
occurrence of `pat` in `s`. -/
def pyRemoveAll (pat : Str) (s : Str) : Str := pyRemoveAllAux pat s.length s

/-- Python slicing `s[:n]`. -/
def pyTake (n : Nat) (s : Str) : Str := s.take n

/-- Constant `MIN_TEXT_LENGTH` from `nodes.py`. -/
def MIN_TEXT_LENGTH : Nat := 50

/-- Constant `MIN_WORDS` from `nodes.py`. -/
def MIN_WORDS : Nat := 10

/-- Gate reason for check 1 (too short / empty) in `extract_and_classify_node`. -/
def msgTooShort : Str :=
  S "Lo siento, el texto extraído de la imagen es demasiado corto o está vacío. Por favor, toma una foto más clara del documento completo, asegurándote de que todo el texto sea visible y legible."

/-- Gate reason for check 2 (too few words). -/
def msgFewWords : Str :=
  S "El texto extraído parece ser muy corto o incompleto. Por favor, intenta tomar una foto más nítida del documento, asegurándote de capturar todo el contenido visible."

/-- Gate reason for check 3 (too many special characters). -/
def msgNoise : Str :=
  S "El texto extraído parece contener demasiados caracteres especiales o no es legible. Por favor, toma una foto más clara del documento, con buena iluminación y sin reflejos."

/-- Gate reason for check 4 (repeated characters). -/
def msgRepetition : Str :=
  S "El texto extraído parece contener ruido o caracteres repetidos. Por favor, intenta tomar una foto más nítida del documento, evitando sombras y asegurándote de que el texto esté bien enfocado."

/-- Gate reason for check 5 (too few distinct words). -/
def msgFewUnique : Str :=
  S "El texto extraído parece ser muy repetitivo o no contiene suficiente información. Por favor, toma una foto del documento completo, asegurándote de capturar todo el contenido."

/-- Classification-failure message from `extract_and_classify_node`. -/
def msgClassifyFailed : Str :=
  S "Hubo un problema al procesar el documento. Por favor, intenta tomar una foto más clara y vuelve a intentarlo."

/-- Accumulator of the consecutive-repetition loop in `extract_and_classify_node`
(`max_repeat`, `current_char`, `current_count`). -/
structure RunAcc where
  max_repeat : Nat
  current_char : Option Char
  current_count : Nat
deriving DecidableEq

/-- One iteration of the repetition-counting loop in `extract_and_classify_node`. -/
def runStep (a : RunAcc) (c : Char) : RunAcc :=
  if some c = a.current_char then
    { max_repeat := max a.max_repeat (a.current_count + 1),
      current_char := a.current_char,
      current_count := a.current_count + 1 }
  else
    { max_repeat := a.max_repeat, current_char := some c, current_count := 1 }

/-- The `max_repeat` value computed by the loop in `extract_and_classify_node`. -/
def maxRepeatOf (s : Str) : Nat :=
  (s.foldl runStep { max_repeat := 0, current_char := none, current_count := 0 }).max_repeat

/-- Punctuation set of `word.strip(".,;:!?()[]\x7b\x7d\"'")` in check 5. -/
def wordPunct : Str := S ".,;:!?()[]\x7b\x7d\x22\x27"

/-- Normalization `word.lower().strip(punct)` applied in check 5. -/
def normalizeWord (w : Str) : Str := pyStripChars wordPunct (pyLower w)

/-- Count of characters satisfying `c.isalnum() or c.isspace()` in the trimmed text. -/
def alnumSpaceCount (s : Str) : Nat := (s.filter pyIsAlnumOrSpace).length

/-- The `alphanumeric_ratio` of the trimmed text, over `ℚ`. -/
def alnumRatio (text_clean : Str) : ℚ :=
  (alnumSpaceCount text_clean : ℚ) / (text_clean.length : ℚ)

/-- Count of `len(set(word.lower().strip(punct) for word in words if len(word) > 2))`. -/
def uniqueWordCount (words : List Str) : Nat :=
  (((words.filter (fun w => 2 < w.length)).map normalizeWord).dedup).length

/-- The text-quality gate: the five sequential validation checks at the top of
`extract_and_classify_node` (`nodes.py` lines 37-106). Returns `some reason`
for a rejection and `none` when the text passes every check. -/
def textQualityGate (raw_text : Str) : Option Str :=
  if pyStrip raw_text = [] ∨ (pyStrip raw_text).length < MIN_TEXT_LENGTH then
    some msgTooShort
  else if (pySplitWs (pyStrip raw_text)).length < MIN_WORDS then
    some msgFewWords
  else if 0 < (pyStrip raw_text).length ∧ alnumRatio (pyStrip raw_text) < 0.5 then
    some msgNoise
  else if 5 < maxRepeatOf (pyStrip raw_text) then
    some msgRepetition
  else if uniqueWordCount (pySplitWs (pyStrip raw_text)) < 5 then
    some msgFewUnique
  else
    none

/-- The `AgentState` TypedDict from `state.py`. -/
structure AgentState where
  raw_text : Str
  doc_type : Str
  simplified_explanation : Str
  identified_risks : List Str
  action_items : List Str
  confidence_score : ℚ
  language : Str
  error_message : Str
  thread_id : Str
  user_token : Str
deriving DecidableEq

/-- One line of the classification parse loop in `extract_and_classify_node`
(`nodes.py` lines 153-158): the accumulator is `(doc_type, language)`. -/
def classifyStep (acc : Str × Str) (line : Str) : Str × Str :=
  if pyStartsWith (S "TIPO:") line then
    (pyStrip (pyRemoveAll (S "TIPO:") line), acc.2)
  else if pyStartsWith (S "IDIOMA:") line then
    (acc.1, pyLower (pyStrip (pyRemoveAll (S "IDIOMA:") line)))
  else acc

/-- The classification grammar over a list of lines, starting from the defaults
`doc_type = "desconocido"`, `language = "es"`. -/
def parseClassifyLines (lines : List Str) : Str × Str :=
  lines.foldl classifyStep (S "desconocido", S "es")

/-- The classification grammar applied to a response text split on newlines. -/
def parseClassifyResponse (response_text : Str) : Str × Str :=
  parseClassifyLines (pySplitOn '\n' response_text)

/-- Section marker (`current_section`) of the analysis parse loop in
`simplify_and_analyze_node`. -/
inductive AnalysisSection where
  | resumen
  | riesgos
  | acciones
deriving DecidableEq

/-- Accumulator of the analysis parse loop in `simplify_and_analyze_node`
(`nodes.py` lines 319-360). -/
structure AnalysisAcc where
  simplified_explanation : Str
  identified_risks : List Str
  action_items : List Str
  current_section : Option AnalysisSection
deriving DecidableEq

/-- Character set of `line.lstrip("1234567890.-* ")` in the RESUMEN branch. -/
def resumenMarkers : Str := S "1234567890.-* "

/-- Character set of `line.lstrip("-* ")` in the RISKS/ACTIONS branches. -/
def bulletMarkers : Str := S "-* "

/-- Whether a (stripped) line is processed by the RESUMEN branch:
`line and (line.startswith(("1.", "2.", "3.", "-", "*")) or line[0].isdigit())`. -/
def resumenLineMatches (line : Str) : Bool :=
  !line.isEmpty &&
    (pyStartsWith (S "1.") line || pyStartsWith (S "2.") line ||
     pyStartsWith (S "3.") line || pyStartsWith (S "-") line ||
     pyStartsWith (S "*") line || (line.headD ' ').isDigit)

/-- One line of the analysis parse loop in `simplify_and_analyze_node`. The raw
line is first stripped; header lines switch `current_section` and contribute no
content; content lines are handled according to the current section. -/
def analysisStep (acc : AnalysisAcc) (rawLine : Str) : AnalysisAcc :=
  let line := pyStrip rawLine
  if pyStartsWith (S "RESUMEN:") line then
    { acc with current_section := some .resumen }
  else if pyStartsWith (S "LETRA CHICA / RIESGOS:") line then
    { acc with current_section := some .riesgos }
  else if pyStartsWith (S "PRÓXIMOS PASOS:") line then
    { acc with current_section := some .acciones }
  else
    match acc.current_section with
    | some .resumen =>
      if resumenLineMatches line then
        let clean_line := pyStrip (pyLStripChars resumenMarkers line)
        if clean_line ≠ [] then
          let joined := if acc.simplified_explanation ≠ [] then
            acc.simplified_explanation ++ S "\n" else acc.simplified_explanation
          { acc with simplified_explanation := joined ++ S "• " ++ clean_line }
        else acc
      else acc
    | some .riesgos =>
      if !line.isEmpty && (pyStartsWith (S "-") line || pyStartsWith (S "*") line) then
        let risk := pyStrip (pyLStripChars bulletMarkers line)
        if risk ≠ [] then
          { acc with identified_risks := acc.identified_risks ++ [risk] }
        else acc
      else acc
    | some .acciones =>
      if !line.isEmpty && (pyStartsWith (S "-") line || pyStartsWith (S "*") line) then
        let action := pyStrip (pyLStripChars bulletMarkers line)
        if action ≠ [] then
          { acc with action_items := acc.action_items ++ [action] }
        else acc
      else acc
    | none => acc

/-- The analysis grammar over a list of lines. -/
def parseAnalysisLines (lines : List Str) : AnalysisAcc :=
  lines.foldl analysisStep
    { simplified_explanation := [], identified_risks := [], action_items := [],
      current_section := none }

/-- The analysis grammar applied to a response text split on newlines. -/
def parseAnalysisResponse (response_text : Str) : AnalysisAcc :=
  parseAnalysisLines (pySplitOn '\n' response_text)

/-- The `extract_and_classify_node` stage (`nodes.py` lines 18-176). The model
outcome (`llm.ainvoke` success payload `response.content`, or an exception) is
an explicit argument; the second component records whether the model was
invoked. -/
def extract_and_classify_node (state : AgentState) (model : Except Unit Str) :
    AgentState × Bool :=
  match textQualityGate state.raw_text with
  | some reason =>
    let st := { state with
      error_message := reason,
      doc_type := ([] : Str),
      language := S "es",
      confidence_score := (0 : ℚ) }
    (st, false)
  | none =>
    match model with
    | .error _ =>
      let st := { state with
        error_message := msgClassifyFailed,
        doc_type := ([] : Str),
        language := S "es",
        confidence_score := (0 : ℚ) }
      (st, true)
    | .ok content =>
      let response_text := pyStrip content
      let parsed := parseClassifyResponse response_text
      let st := { state with
        doc_type := parsed.1,
        language := parsed.2,
        error_message := ([] : Str) }
      (st, true)

/-- The `updated_state` dict built in `simplify_and_analyze_node` after a
successful model call (`nodes.py` lines 362-373), including the 500-character
fallback when the parsed explanation is empty. -/
def mkUpdatedState (state : AgentState) (content : Str) : AgentState :=
  let response_text := pyStrip content
  let parsed := parseAnalysisResponse response_text
  let simplified_explanation :=
    if parsed.simplified_explanation = [] then pyTake 500 response_text
    else parsed.simplified_explanation
  { state with
    simplified_explanation := simplified_explanation,
    identified_risks := parsed.identified_risks,
    action_items := parsed.action_items,
    user_token := state.user_token }

/-- Extraction of `user_id_from_thread` from the thread id in
`simplify_and_analyze_node` (`nodes.py` lines 399-406): defined (possibly as
the empty string) exactly when the thread id starts with `"user_"` and has at
least two `_`-separated parts. -/
def deriveUserId (thread_id : Str) : Option Str :=
  if pyStartsWith (S "user_") thread_id ∧ 2 ≤ (pySplitOn '_' thread_id).length then
    some ((pySplitOn '_' thread_id).getD 1 [])
  else none

/-- Row inserted into the `user_analyses` table (`analysis_data` in
`nodes.py` lines 414-428); `raw_text` is present only when the state's raw
text is non-empty, and is truncated to 1000 characters. -/
structure AnalysisRecord where
  thread_id : Str
  user_id : Str
  doc_type : Str
  simplified_explanation : Str
  identified_risks : List Str
  action_items : List Str
  confidence_score : ℚ
  language : Str
  raw_text : Option Str
deriving DecidableEq

/-- The record `simplify_and_analyze_node` attempts to insert, or `none` when
persistence is skipped (no user id could be derived from the thread id, or the
derived id is the empty string, in which case the code raises a `ValueError`
that its own `except` block swallows after logging). -/
def persistedRecord (state : AgentState) (content : Str) : Option AnalysisRecord :=
  match deriveUserId state.thread_id with
  | none => none
  | some uid =>
    if uid = [] then none
    else
      let truncatedRaw : Option Str :=
        if state.raw_text = [] then none else some (pyTake 1000 state.raw_text)
      some
        { thread_id := state.thread_id,
          user_id := uid,
          doc_type := state.doc_type,
          simplified_explanation := (mkUpdatedState state content).simplified_explanation,
          identified_risks := (mkUpdatedState state content).identified_risks,
          action_items := (mkUpdatedState state content).action_items,
          confidence_score := state.confidence_score,
          language := state.language,
          raw_text := truncatedRaw }

/-- Fallback state returned by `simplify_and_analyze_node` when the model call
raises (`nodes.py` lines 449-457). -/
def simplifyFallbackState (state : AgentState) : AgentState :=
  { state with
    simplified_explanation :=
      S "Error al procesar el documento. Por favor, intenta nuevamente.",
    identified_risks :=
      [S "No se pudieron identificar riesgos debido a un error en el procesamiento."],
    action_items :=
      [S "Contacta con soporte técnico si el problema persiste."],
    confidence_score := 0 }

/-- The `simplify_and_analyze_node` stage (`nodes.py` lines 229-457). Returns
the updated state, whether the model was invoked, and the record (if any) the
stage attempted to persist. Database failures are swallowed by the code and do
not affect the returned state, so persistence appears only as the third
component. -/
def simplify_and_analyze_node (state : AgentState) (model : Except Unit Str) :
    AgentState × Bool × Option AnalysisRecord :=
  if state.error_message ≠ [] ∧ pyStrip state.error_message ≠ [] then
    (state, false, none)
  else
    match model with
    | .error _ => (simplifyFallbackState state, true, none)
    | .ok content => (mkUpdatedState state content, true, persistedRecord state content)

/-- The conditional function `should_continue` from `graph.py` lines 10-26. -/
def should_continue (state : AgentState) : Str :=
  if state.error_message ≠ [] ∧ pyStrip state.error_message ≠ [] then S "end"
  else S "continue"

/-- The compiled workflow of `graph.py`: entry point `extract_and_classify`,
then the conditional edge keyed on `should_continue` (`"end" → END`,
`"continue" → simplify_and_analyze`), then `simplify_and_analyze → END`.
Returns the final state and whether the analysis stage ran. -/
def runWorkflow (state : AgentState) (classifyModel simplifyModel : Except Unit Str) :
    AgentState × Bool :=
  let s1 := (extract_and_classify_node state classifyModel).1
  if should_continue s1 = S "continue" then
    ((simplify_and_analyze_node s1 simplifyModel).1, true)
  else
    (s1, false)

/-- A fully concrete initial state (all textual fields empty,
`confidence_score = 1`), used to instantiate the theorems below. -/
def baseState : AgentState :=
  { raw_text := [], doc_type := [], simplified_explanation := [],
    identified_risks := [], action_items := [], confidence_score := 1,
    language := S "es", error_message := [], thread_id := [], user_token := [] }

/-- The guard `error_message and error_message.strip()` is falsy exactly when
the trimmed error message is empty. -/
lemma not_guard_iff (em : Str) :
    ¬(em ≠ [] ∧ pyStrip em ≠ []) ↔ pyStrip em = [] := by
  constructor
  · intro h
    by_cases he : em = []
    · subst he; rfl
    · by_contra hs
      exact h ⟨he, hs⟩
  · intro hs hc
    exact hc.2 hs

/-- A non-empty trimmed error message forces the guard to be truthy. -/
lemma guard_of_strip_ne (em : Str) (h : pyStrip em ≠ []) :
    em ≠ [] ∧ pyStrip em ≠ [] := by
  refine ⟨?_, h⟩
  intro he
  subst he
  exact h rfl

/-- Early-return branch of `simplify_and_analyze_node`. -/
lemma simplify_early (state : AgentState) (model : Except Unit Str)
    (h : pyStrip state.error_message ≠ []) :
    simplify_and_analyze_node state model = (state, false, none) := by
  unfold simplify_and_analyze_node
  rw [if_pos (guard_of_strip_ne _ h)]

/-- Model-failure branch of `simplify_and_analyze_node`. -/
lemma simplify_model_error (state : AgentState) (u : Unit)
    (h : pyStrip state.error_message = []) :
    simplify_and_analyze_node state (.error u) =
      (simplifyFallbackState state, true, none) := by
  unfold simplify_and_analyze_node
  rw [if_neg ((not_guard_iff _).mpr h)]

/-- Model-success branch of `simplify_and_analyze_node`. -/
lemma simplify_model_ok (state : AgentState) (content : Str)
    (h : pyStrip state.error_message = []) :
    simplify_and_analyze_node state (.ok content) =
      (mkUpdatedState state content, true, persistedRecord state content) := by
  unfold simplify_and_analyze_node
  rw [if_neg ((not_guard_iff _).mpr h)]

/-- The conditional edge routes to the analysis stage exactly when the trimmed
error message is empty. -/
lemma should_continue_iff (s : AgentState) :
    should_continue s = S "continue" ↔ pyStrip s.error_message = [] := by
  unfold should_continue
  by_cases h : s.error_message ≠ [] ∧ pyStrip s.error_message ≠ []
  · rw [if_pos h]
    have hne : S "end" ≠ S "continue" := by decide
    simp only [hne, false_iff]
    exact h.2
  · rw [if_neg h]
    simp only [true_iff]
    exact (not_guard_iff _).mp h

/-- C1: after `ClassifyStage`, the engine runs `SimplifyAndAnalyzeStage` if and
only if the returned state's `error_message` is empty after trimming; when it
halts it returns the classify-stage state, when it continues it returns the
analysis-stage state, and `should_continue` inspects no field other than
`error_message` (states agreeing on `error_message` are routed identically). -/
theorem C1_early_exit_iff_trimmed_error_nonempty :
    ∀ (s0 : AgentState) (m1 m2 : Except Unit Str),
      ((runWorkflow s0 m1 m2).2 = true ↔
        pyStrip ((extract_and_classify_node s0 m1).1).error_message = []) ∧
      ((runWorkflow s0 m1 m2).2 = true →
        (runWorkflow s0 m1 m2).1 =
          (simplify_and_analyze_node (extract_and_classify_node s0 m1).1 m2).1) ∧
      ((runWorkflow s0 m1 m2).2 = false →
        (runWorkflow s0 m1 m2).1 = (extract_and_classify_node s0 m1).1) ∧
      (∀ s s' : AgentState, s.error_message = s'.error_message →
        should_continue s = should_continue s') := by
  intro s0 m1 m2
  have hrw : runWorkflow s0 m1 m2 =
      if should_continue (extract_and_classify_node s0 m1).1 = S "continue" then
        ((simplify_and_analyze_node (extract_and_classify_node s0 m1).1 m2).1, true)
      else ((extract_and_classify_node s0 m1).1, false) := rfl
  refine ⟨?_, ?_, ?_, ?_⟩
  · rw [hrw]
    by_cases h : should_continue (extract_and_classify_node s0 m1).1 = S "continue"
    · rw [if_pos h]
      simpa using (should_continue_iff _).mp h
    · rw [if_neg h]
      simp only [Bool.false_eq_true, false_iff]
      intro hs
      exact h ((should_continue_iff _).mpr hs)
  · rw [hrw]
    by_cases h : should_continue (extract_and_classify_node s0 m1).1 = S "continue"
    · rw [if_pos h]; intro _; rfl
    · rw [if_neg h]; intro hab; simp at hab
  · rw [hrw]
    by_cases h : should_continue (extract_and_classify_node s0 m1).1 = S "continue"
    · rw [if_pos h]; intro hab; simp at hab
    · rw [if_neg h]; intro _; rfl
  · intro s s' he
    unfold should_continue
    rw [he]

/-- Witness for C1 at a concrete state and model outcomes: the classify stage
rejects the empty raw text, so the analysis stage does not run. -/
theorem C1_early_exit_witness :
    (runWorkflow baseState (.ok (S "TIPO: x")) (.ok (S "y"))).2 = false :=
  by
    have h := (C1_early_exit_iff_trimmed_error_nonempty baseState
      (.ok (S "TIPO: x")) (.ok (S "y"))).1
    by_contra hne
    have htrue : (runWorkflow baseState (.ok (S "TIPO: x")) (.ok (S "y"))).2 = true := by
      revert hne; decide
    exact absurd (h.mp htrue) (by decide)

/-- Gate equation: check 1 fires. -/
lemma gate_tooShort (s : Str)
    (h : pyStrip s = [] ∨ (pyStrip s).length < MIN_TEXT_LENGTH) :
    textQualityGate s = some msgTooShort := by
  unfold textQualityGate
  rw [if_pos h]

/-- Gate equation: check 1 passes and check 2 fires. -/
lemma gate_fewWords (s : Str)
    (h1 : ¬(pyStrip s = [] ∨ (pyStrip s).length < MIN_TEXT_LENGTH))
    (h2 : (pySplitWs (pyStrip s)).length < MIN_WORDS) :
    textQualityGate s = some msgFewWords := by
  unfold textQualityGate
  rw [if_neg h1, if_pos h2]

/-- Gate equation: checks 1-2 pass and check 3 fires. -/
lemma gate_noise (s : Str)
    (h1 : ¬(pyStrip s = [] ∨ (pyStrip s).length < MIN_TEXT_LENGTH))
    (h2 : ¬(pySplitWs (pyStrip s)).length < MIN_WORDS)
    (h3 : 0 < (pyStrip s).length ∧ alnumRatio (pyStrip s) < 0.5) :
    textQualityGate s = some msgNoise := by
  unfold textQualityGate
  rw [if_neg h1, if_neg h2, if_pos h3]

/-- Gate equation: checks 1-3 pass and check 4 fires. -/
lemma gate_repetition (s : Str)
    (h1 : ¬(pyStrip s = [] ∨ (pyStrip s).length < MIN_TEXT_LENGTH))
    (h2 : ¬(pySplitWs (pyStrip s)).length < MIN_WORDS)
    (h3 : ¬(0 < (pyStrip s).length ∧ alnumRatio (pyStrip s) < 0.5))
    (h4 : 5 < maxRepeatOf (pyStrip s)) :
    textQualityGate s = some msgRepetition := by
  unfold textQualityGate
  rw [if_neg h1, if_neg h2, if_neg h3, if_pos h4]

/-- Gate equation: checks 1-4 pass and check 5 fires. -/
lemma gate_fewUnique (s : Str)
    (h1 : ¬(pyStrip s = [] ∨ (pyStrip s).length < MIN_TEXT_LENGTH))
    (h2 : ¬(pySplitWs (pyStrip s)).length < MIN_WORDS)
    (h3 : ¬(0 < (pyStrip s).length ∧ alnumRatio (pyStrip s) < 0.5))
    (h4 : ¬5 < maxRepeatOf (pyStrip s))
    (h5 : uniqueWordCount (pySplitWs (pyStrip s)) < 5) :
    textQualityGate s = some msgFewUnique := by
  unfold textQualityGate
  rw [if_neg h1, if_neg h2, if_neg h3, if_neg h4, if_pos h5]

/-- Gate equation: all five checks pass. -/
lemma gate_none (s : Str)
    (h1 : ¬(pyStrip s = [] ∨ (pyStrip s).length < MIN_TEXT_LENGTH))
    (h2 : ¬(pySplitWs (pyStrip s)).length < MIN_WORDS)
    (h3 : ¬(0 < (pyStrip s).length ∧ alnumRatio (pyStrip s) < 0.5))
    (h4 : ¬5 < maxRepeatOf (pyStrip s))
    (h5 : ¬uniqueWordCount (pySplitWs (pyStrip s)) < 5) :
    textQualityGate s = none := by
  unfold textQualityGate
  rw [if_neg h1, if_neg h2, if_neg h3, if_neg h4, if_neg h5]

/-- Rejection branch of `extract_and_classify_node`. -/
lemma classify_of_gate_some (state : AgentState) (model : Except Unit Str)
    (r : Str) (h : textQualityGate state.raw_text = some r) :
    extract_and_classify_node state model =
      ({ state with error_message := r, doc_type := [], language := S "es", confidence_score := 0 }, false) := by
  unfold extract_and_classify_node
  rw [h]

/-- C3: when the trimmed raw text is shorter than 50 characters or has fewer
than 10 whitespace-split words, `ClassifyStage` returns the state with
`error_message` set to the gate's localized reason, `doc_type = ""`,
`language = "es"`, `confidence_score = 0.0`, and the external model is not
invoked. -/
theorem C3_gate_rejection_skips_model :
    ∀ (state : AgentState) (model : Except Unit Str),
      ((pyStrip state.raw_text).length < 50 ∨
        (pySplitWs (pyStrip state.raw_text)).length < 10) →
      ∃ r, textQualityGate state.raw_text = some r ∧
        extract_and_classify_node state model =
          ({ state with error_message := r, doc_type := [], language := S "es", confidence_score := 0 }, false) := by
  intro state model h
  by_cases hlen : (pyStrip state.raw_text).length < 50
  · refine ⟨msgTooShort, gate_tooShort _ (Or.inr hlen), ?_⟩
    exact classify_of_gate_some _ _ _ (gate_tooShort _ (Or.inr hlen))
  · have hw : (pySplitWs (pyStrip state.raw_text)).length < 10 := by tauto
    have h1 : ¬(pyStrip state.raw_text = [] ∨
        (pyStrip state.raw_text).length < MIN_TEXT_LENGTH) := by
      intro hc
      rcases hc with hc | hc
      · exact hlen (by rw [hc]; decide)
      · exact hlen hc
    refine ⟨msgFewWords, gate_fewWords _ h1 hw, ?_⟩
    exact classify_of_gate_some _ _ _ (gate_fewWords _ h1 hw)

/-- State with the concrete short raw text `"hola"` (4 characters). -/
def shortTextState : AgentState := { baseState with raw_text := S "hola" }

/-- Witness for C3 at the concrete raw text `"hola"` (4 characters). -/
theorem C3_gate_rejection_witness :
    ∃ r, textQualityGate shortTextState.raw_text = some r ∧
      extract_and_classify_node shortTextState (.ok (S "x")) =
        ({ shortTextState with error_message := r, doc_type := [], language := S "es", confidence_score := 0 }, false) :=
  C3_gate_rejection_skips_model shortTextState (.ok (S "x")) (Or.inl (by decide))

/-- A state whose `error_message` is non-empty but consists only of whitespace. -/
def blankErrorState : AgentState := { baseState with error_message := S " " }

/-- Counterexample to C4 as stated: a state whose `error_message` is the
non-empty string `" "` is NOT returned unchanged by `SimplifyAndAnalyzeStage`
(the guard tests the trimmed message, so the stage proceeds, invokes the model
and overwrites `simplified_explanation`). -/
theorem C4_counterexample :
    blankErrorState.error_message ≠ [] ∧
    (simplify_and_analyze_node blankErrorState (.ok (S "hola"))).2.1 = true ∧
    (simplify_and_analyze_node blankErrorState (.ok (S "hola"))).1 ≠ blankErrorState := by
  refine ⟨by decide, ?_, ?_⟩ <;> decide

/-- C4 (amended): for every incoming state whose `error_message` is non-empty
AFTER TRIMMING, `SimplifyAndAnalyzeStage` returns that state unchanged and
invokes neither the external model nor the persistence collaborator. -/
theorem C4_trimmed_error_returns_unchanged :
    ∀ (state : AgentState) (model : Except Unit Str),
      pyStrip state.error_message ≠ [] →
      simplify_and_analyze_node state model = (state, false, none) :=
  fun state model h => simplify_early state model h

/-- Witness for the amended C4 at `error_message = "x"`. -/
theorem C4_trimmed_error_witness :
    simplify_and_analyze_node { baseState with error_message := S "x" } (.ok (S "hola")) =
      ({ baseState with error_message := S "x" }, false, none) :=
  C4_trimmed_error_returns_unchanged { baseState with error_message := S "x" }
    (.ok (S "hola")) (by decide)

/-- C7: when the model call of `SimplifyAndAnalyzeStage` fails (and the stage
actually reaches the call, i.e. the incoming trimmed error message is empty),
the stage returns — without any exception escaping, since the embedded node is
a total function — the incoming state with the generic localized explanation,
`identified_risks` and `action_items` each overwritten wholesale by exactly one
fallback sentinel element, and `confidence_score = 0.0`; the persistence
collaborator is not invoked. -/
theorem C7_model_failure_fallback :
    ∀ (state : AgentState) (u : Unit),
      pyStrip state.error_message = [] →
      simplify_and_analyze_node state (.error u) =
        ({ state with
            simplified_explanation := S "Error al procesar el documento. Por favor, intenta nuevamente.",
            identified_risks := [S "No se pudieron identificar riesgos debido a un error en el procesamiento."],
            action_items := [S "Contacta con soporte técnico si el problema persiste."],
            confidence_score := 0 }, true, none) :=
  fun state u h => simplify_model_error state u h

/-- Witness for C7 at a concrete state with non-empty risk/action lists,
showing they are overwritten wholesale. -/
theorem C7_model_failure_witness :
    simplify_and_analyze_node
        { baseState with identified_risks := [S "r1", S "r2"], action_items := [S "a1"] }
        (.error ()) =
      ({ baseState with
          simplified_explanation := S "Error al procesar el documento. Por favor, intenta nuevamente.",
          identified_risks := [S "No se pudieron identificar riesgos debido a un error en el procesamiento."],
          action_items := [S "Contacta con soporte técnico si el problema persiste."],
          confidence_score := 0 }, true, none) :=
  C7_model_failure_fallback
    { baseState with identified_risks := [S "r1", S "r2"], action_items := [S "a1"] }
    () (by decide)

/-- Counterexample to C9 as stated: for the model response `"   hola"` (which
accumulates an empty explanation), the stage sets `simplified_explanation` to
`"hola"` — the first 500 characters of the STRIPPED response — which differs
from the first 500 characters of the raw model response `"   hola"`. -/
theorem C9_counterexample :
    (parseAnalysisResponse (pyStrip (S "   hola"))).simplified_explanation = [] ∧
    (simplify_and_analyze_node baseState (.ok (S "   hola"))).1.simplified_explanation = S "hola" ∧
    S "hola" ≠ pyTake 500 (S "   hola") := by
  refine ⟨by decide, by decide, by decide⟩

/-- C9 (amended): for every model response for which the analysis grammar
accumulates an empty explanation, `simplified_explanation` is set to the first
500 characters of the whitespace-trimmed model response. -/
theorem C9_empty_parse_fallback_500 :
    ∀ (state : AgentState) (content : Str),
      pyStrip state.error_message = [] →
      (parseAnalysisResponse (pyStrip content)).simplified_explanation = [] →
      (simplify_and_analyze_node state (.ok content)).1.simplified_explanation =
        pyTake 500 (pyStrip content) := by
  intro state content herr hparse
  rw [simplify_model_ok state content herr]
  unfold mkUpdatedState
  simp only [hparse, if_pos]

/-- Witness for the amended C9 at the concrete response `"   hola"`. -/
theorem C9_empty_parse_fallback_witness :
    (simplify_and_analyze_node baseState (.ok (S "   hola"))).1.simplified_explanation =
      pyTake 500 (pyStrip (S "   hola")) :=
  C9_empty_parse_fallback_500 baseState (S "   hola") (by decide) (by decide)

/-- C10: when the incoming `error_message` is empty and the stage-2 model call
fails totally, the returned state still has an EMPTY `error_message`; the
failure is signalled only through the generic explanation, the two sentinel
lists and `confidence_score = 0.0`, so the engine's sole short-circuit test
(`should_continue`) classifies the result as a non-error state. -/
theorem C10_stage2_failure_keeps_error_empty :
    ∀ (state : AgentState) (u : Unit),
      state.error_message = [] →
      (simplify_and_analyze_node state (.error u)).1.error_message = [] ∧
      (simplify_and_analyze_node state (.error u)).1.simplified_explanation =
        S "Error al procesar el documento. Por favor, intenta nuevamente." ∧
      (simplify_and_analyze_node state (.error u)).1.identified_risks =
        [S "No se pudieron identificar riesgos debido a un error en el procesamiento."] ∧
      (simplify_and_analyze_node state (.error u)).1.action_items =
        [S "Contacta con soporte técnico si el problema persiste."] ∧
      (simplify_and_analyze_node state (.error u)).1.confidence_score = 0 ∧
      should_continue (simplify_and_analyze_node state (.error u)).1 = S "continue" := by
  intro state u herr
  have hstrip : pyStrip state.error_message = [] := by rw [herr]; rfl
  rw [simplify_model_error state u hstrip]
  refine ⟨herr, rfl, rfl, rfl, rfl, ?_⟩
  unfold should_continue
  rw [if_neg]
  rw [not_guard_iff]
  show pyStrip state.error_message = []
  exact hstrip

/-- Witness for C10 at the concrete base state. -/
theorem C10_stage2_failure_witness :
    (simplify_and_analyze_node baseState (.error ())).1.error_message = [] ∧
    (simplify_and_analyze_node baseState (.error ())).1.simplified_explanation =
      S "Error al procesar el documento. Por favor, intenta nuevamente." ∧
    (simplify_and_analyze_node baseState (.error ())).1.identified_risks =
      [S "No se pudieron identificar riesgos debido a un error en el procesamiento."] ∧
    (simplify_and_analyze_node baseState (.error ())).1.action_items =
      [S "Contacta con soporte técnico si el problema persiste."] ∧
    (simplify_and_analyze_node baseState (.error ())).1.confidence_score = 0 ∧
    should_continue (simplify_and_analyze_node baseState (.error ())).1 = S "continue" :=
  C10_stage2_failure_keeps_error_empty baseState () rfl

/-- A line matched by a prefix starting with character `c` itself starts with `c`. -/
lemma startsWith_head (c : Char) (p s : Str) (h : pyStartsWith (c :: p) s = true) :
    ∃ t, s = c :: t := by
  unfold pyStartsWith at h
  cases s with
  | nil => simp [List.isPrefixOf] at h
  | cons a t =>
    simp only [List.isPrefixOf, Bool.and_eq_true, beq_iff_eq] at h
    exact ⟨t, by rw [h.1]⟩

/-- A line starting with `IDIOMA:` does not start with `TIPO:`. -/
lemma idioma_not_tipo (s : Str) (h : pyStartsWith (S "IDIOMA:") s = true) :
    ¬pyStartsWith (S "TIPO:") s = true := by
  obtain ⟨t, rfl⟩ := startsWith_head 'I' (S "DIOMA:") s h
  intro hc
  obtain ⟨u, he⟩ := startsWith_head 'T' (S "IPO:") _ hc
  exact absurd (List.head_eq_of_cons_eq he) (by decide)

/-- A non-`TIPO:` line leaves `doc_type` untouched. -/
lemma classifyStep_fst (acc : Str × Str) (l : Str)
    (h : ¬pyStartsWith (S "TIPO:") l = true) :
    (classifyStep acc l).1 = acc.1 := by
  unfold classifyStep
  rw [if_neg h]
  by_cases hI : pyStartsWith (S "IDIOMA:") l = true
  · rw [if_pos hI]
  · rw [if_neg hI]

/-- A non-`IDIOMA:` line leaves `language` untouched. -/
lemma classifyStep_snd (acc : Str × Str) (l : Str)
    (h : ¬pyStartsWith (S "IDIOMA:") l = true) :
    (classifyStep acc l).2 = acc.2 := by
  unfold classifyStep
  by_cases hT : pyStartsWith (S "TIPO:") l = true
  · rw [if_pos hT]
  · rw [if_neg hT, if_neg h]

/-- Folding over lines none of which starts with `TIPO:` preserves `doc_type`. -/
lemma classify_fold_fst (lines : List Str) :
    ∀ acc : Str × Str, (∀ l ∈ lines, ¬pyStartsWith (S "TIPO:") l = true) →
      (lines.foldl classifyStep acc).1 = acc.1 := by
  induction lines with
  | nil => intro acc _; rfl
  | cons l ls ih =>
    intro acc h
    rw [List.foldl_cons]
    rw [ih _ (fun x hx => h x (List.mem_cons_of_mem l hx))]
    exact classifyStep_fst acc l (h l (List.mem_cons_self l ls))

/-- Folding over lines none of which starts with `IDIOMA:` preserves `language`. -/
lemma classify_fold_snd (lines : List Str) :
    ∀ acc : Str × Str, (∀ l ∈ lines, ¬pyStartsWith (S "IDIOMA:") l = true) →
      (lines.foldl classifyStep acc).2 = acc.2 := by
  induction lines with
  | nil => intro acc _; rfl
  | cons l ls ih =>
    intro acc h
    rw [List.foldl_cons]
    rw [ih _ (fun x hx => h x (List.mem_cons_of_mem l hx))]
    exact classifyStep_snd acc l (h l (List.mem_cons_self l ls))

/-- C5: the classification grammar on the exact model output
`"TIPO: Contrato de arrendamiento\nCATEGORÍA: LEGAL\nIDIOMA: es"` yields
`doc_type = "Contrato de arrendamiento"` and `language = "es"`; with no line
starting with `TIPO:` the `doc_type` stays the sentinel `"desconocido"`; with
no line starting with `IDIOMA:` the `language` defaults to `"es"`; and when a
prefix occurs on several lines the last matching line determines the field. -/
theorem C5_classification_grammar :
    parseClassifyResponse
        (S "TIPO: Contrato de arrendamiento\nCATEGORÍA: LEGAL\nIDIOMA: es") =
      (S "Contrato de arrendamiento", S "es") ∧
    (∀ lines : List Str, (∀ l ∈ lines, ¬pyStartsWith (S "TIPO:") l = true) →
      (parseClassifyLines lines).1 = S "desconocido") ∧
    (∀ lines : List Str, (∀ l ∈ lines, ¬pyStartsWith (S "IDIOMA:") l = true) →
      (parseClassifyLines lines).2 = S "es") ∧
    (∀ (pre post : List Str) (x : Str), pyStartsWith (S "TIPO:") x = true →
      (∀ l ∈ post, ¬pyStartsWith (S "TIPO:") l = true) →
      (parseClassifyLines (pre ++ x :: post)).1 =
        pyStrip (pyRemoveAll (S "TIPO:") x)) ∧
    (∀ (pre post : List Str) (x : Str), pyStartsWith (S "IDIOMA:") x = true →
      (∀ l ∈ post, ¬pyStartsWith (S "IDIOMA:") l = true) →
      (parseClassifyLines (pre ++ x :: post)).2 =
        pyLower (pyStrip (pyRemoveAll (S "IDIOMA:") x))) := by
  refine ⟨by decide, ?_, ?_, ?_, ?_⟩
  · intro lines h
    exact classify_fold_fst lines _ h
  · intro lines h
    exact classify_fold_snd lines _ h
  · intro pre post x hx hpost
    unfold parseClassifyLines
    rw [List.foldl_append, List.foldl_cons]
    rw [classify_fold_fst post _ hpost]
    unfold classifyStep
    rw [if_pos hx]
  · intro pre post x hx hpost
    unfold parseClassifyLines
    rw [List.foldl_append, List.foldl_cons]
    rw [classify_fold_snd post _ hpost]
    unfold classifyStep
    rw [if_neg (idioma_not_tipo x hx), if_pos hx]

/-- Witness for C5: the duplicate-`TIPO:` case at a concrete line list (last
write wins), with the defaults instantiated on a concrete prefix-free list. -/
theorem C5_classification_witness :
    (parseClassifyLines [S "TIPO: a", S "TIPO: b"]).1 = pyStrip (pyRemoveAll (S "TIPO:") (S "TIPO: b")) ∧
    (parseClassifyLines [S "hola"]).1 = S "desconocido" :=
  ⟨(C5_classification_grammar).2.2.2.1 [S "TIPO: a"] [] (S "TIPO: b") (by decide)
      (by decide),
    (C5_classification_grammar).2.1 [S "hola"] (by decide)⟩

/-- C8: the user identifier derived from a thread id is always its second
`_`-delimited segment (in particular `"user_42_ab12cd"` yields `"42"`), and
whenever no usable user id is derived (`None`, or the falsy empty string that
triggers the internally raised and swallowed `ValueError`), the insert is
skipped while the state returned by `SimplifyAndAnalyzeStage` is exactly the
`updated_state` it would return anyway. -/
theorem C8_user_id_second_segment :
    deriveUserId (S "user_42_ab12cd") = some (S "42") ∧
    (∀ (tid uid : Str), deriveUserId tid = some uid →
      uid = (pySplitOn '_' tid).getD 1 []) ∧
    (∀ (state : AgentState) (content : Str),
      pyStrip state.error_message = [] →
      (deriveUserId state.thread_id = none ∨ deriveUserId state.thread_id = some []) →
      (simplify_and_analyze_node state (.ok content)).2.2 = none ∧
      (simplify_and_analyze_node state (.ok content)).1 = mkUpdatedState state content) := by
  refine ⟨by decide, ?_, ?_⟩
  · intro tid uid h
    unfold deriveUserId at h
    by_cases hc : pyStartsWith (S "user_") tid = true ∧ 2 ≤ (pySplitOn '_' tid).length
    · rw [if_pos hc] at h
      exact (Option.some_inj.mp h).symm
    · rw [if_neg hc] at h
      exact absurd h (by simp)
  · intro state content herr hskip
    rw [simplify_model_ok state content herr]
    refine ⟨?_, rfl⟩
    show persistedRecord state content = none
    unfold persistedRecord
    rcases hskip with h | h
    · rw [h]
    · rw [h]
      simp

/-- Witness for C8 at a concrete state whose thread id `"abc"` yields no user
id: the insert is skipped and the returned state is untouched. -/
theorem C8_user_id_witness :
    (simplify_and_analyze_node { baseState with thread_id := S "abc" } (.ok (S "x"))).2.2 = none ∧
    (simplify_and_analyze_node { baseState with thread_id := S "abc" } (.ok (S "x"))).1 =
      mkUpdatedState { baseState with thread_id := S "abc" } (S "x") :=
  (C8_user_id_second_segment).2.2 { baseState with thread_id := S "abc" } (S "x")
    (by decide) (Or.inl (by decide))

/-- Unfolding equation for `isPrefixOf` on two cons cells. -/
lemma isPrefixOf_cons₂ (a b : Char) (as bs : Str) :
    (a :: as).isPrefixOf (b :: bs) = (a == b && as.isPrefixOf bs) := rfl

/-- Lines whose head differs from the head of a non-empty pattern do not start
with that pattern. -/
lemma not_startsWith_of_head_ne (c a : Char) (p t : Str) (h : a ≠ c) :
    pyStartsWith (c :: p) (a :: t) = false := by
  unfold pyStartsWith
  rw [isPrefixOf_cons₂]
  have : (c == a) = false := by
    simp [Ne.symm h]
  rw [this, Bool.false_and]

/-- `dropWhile` keeps a list whose head fails the predicate. -/
lemma lstripChars_stop (cs : Str) (c : Char) (t : Str) (h : c ∉ cs) :
    pyLStripChars cs (c :: t) = c :: t := by
  simp [pyLStripChars, List.dropWhile_cons, h]

/-- `dropWhile` removes a head that satisfies the predicate. -/
lemma lstripChars_step (cs : Str) (c : Char) (t : Str) (h : c ∈ cs) :
    pyLStripChars cs (c :: t) = pyLStripChars cs t := by
  simp [pyLStripChars, List.dropWhile_cons, h]

/-- `lstrip` keeps a list whose head is not whitespace. -/
lemma lstrip_cons_not_space (c : Char) (t : Str) (hc : pyIsSpace c = false) :
    pyLStrip (c :: t) = c :: t := by
  simp [pyLStrip, List.dropWhile_cons, hc]

/-- A string equal to its own `strip` is equal to its own `lstrip` and `rstrip`. -/
lemma strip_eq_parts (s : Str) (h : pyStrip s = s) :
    pyLStrip s = s ∧ pyRStrip s = s := by
  have hR : ∀ x : Str, (pyRStrip x).length ≤ x.length := by
    intro x
    simp only [pyRStrip, List.length_reverse]
    have := (List.dropWhile_suffix (l := x.reverse) pyIsSpace).sublist.length_le
    simpa using this
  have hL : (pyLStrip s).length ≤ s.length :=
    (List.dropWhile_suffix (l := s) pyIsSpace).sublist.length_le
  have hlen : (pyLStrip s).length = s.length := by
    have h1 : (pyStrip s).length = s.length := by rw [h]
    have h2 : (pyStrip s).length ≤ (pyLStrip s).length := hR (pyLStrip s)
    omega
  have hLs : pyLStrip s = s := by
    have hsuf : pyLStrip s <:+ s := List.dropWhile_suffix _
    exact List.IsSuffix.eq_of_length hsuf hlen
  refine ⟨hLs, ?_⟩
  have := h
  unfold pyStrip at this
  rwa [hLs] at this

/-- `rstrip` ignores anything prepended to a string that does not end in
whitespace. -/
lemma rstrip_append (a s : Str) (hs : pyRStrip s = s) (hne : s ≠ []) :
    pyRStrip (a ++ s) = a ++ s := by
  obtain ⟨d, u, hrev⟩ : ∃ d u, s.reverse = d :: u := by
    cases hr : s.reverse with
    | nil => exact absurd (by simpa using congrArg List.reverse hr) hne
    | cons d u => exact ⟨d, u, rfl⟩
  have hd : pyIsSpace d = false := by
    by_contra hcon
    have hd' : pyIsSpace d = true := by
      cases hdd : pyIsSpace d
      · exact absurd hdd hcon
      · rfl
    have : (pyRStrip s).length < s.length := by
      unfold pyRStrip
      rw [hrev]
      rw [List.dropWhile_cons, if_pos hd']
      have := (List.dropWhile_suffix (l := u) pyIsSpace).sublist.length_le
      simp only [List.length_reverse]
      have hlen : s.length = u.length + 1 := by
        have := congrArg List.length hrev
        simpa using this
      omega
    rw [hs] at this
    omega
  unfold pyRStrip
  rw [List.reverse_append, hrev]
  rw [List.cons_append, List.dropWhile_cons, if_neg (by rw [hd]; exact Bool.false_ne_true)]
  rw [← List.cons_append, ← hrev, List.reverse_append]
  simp

/-- `strip` ignores a non-whitespace-headed marker prefix in front of an
already-stripped non-empty payload. -/
lemma strip_marker_prepend (c : Char) (t s : Str) (hc : pyIsSpace c = false)
    (hs : pyStrip s = s) (hne : s ≠ []) :
    pyStrip (c :: t ++ s) = c :: t ++ s := by
  obtain ⟨hL, hR⟩ := strip_eq_parts s hs
  unfold pyStrip
  rw [show (c :: t ++ s : Str) = c :: (t ++ s) from rfl]
  rw [lstrip_cons_not_space c (t ++ s) hc]
  exact rstrip_append (c :: t) s hR hne

/-- A payload line body: already stripped, non-empty, and not starting with any
list-marker character. -/
def plainPayload (s : Str) : Prop :=
  pyStrip s = s ∧ ∃ c t, s = c :: t ∧ c ∉ resumenMarkers ∧ c ∉ bulletMarkers

/-- Boolean falsity transfer for `if` conditions. -/
lemma bool_not_true {b : Bool} (h : b = false) : ¬b = true := by
  rw [h]
  exact Bool.false_ne_true

/-- A `RESUMEN:` header line only switches the section. -/
lemma analysisStep_header_resumen (acc : AnalysisAcc) (l : Str)
    (h : pyStartsWith (S "RESUMEN:") (pyStrip l) = true) :
    analysisStep acc l = { acc with current_section := some .resumen } := by
  simp only [analysisStep]
  rw [if_pos h]

/-- A `LETRA CHICA / RIESGOS:` header line only switches the section. -/
lemma analysisStep_header_riesgos (acc : AnalysisAcc) (l : Str)
    (h : pyStartsWith (S "LETRA CHICA / RIESGOS:") (pyStrip l) = true) :
    analysisStep acc l = { acc with current_section := some .riesgos } := by
  obtain ⟨t, ht⟩ := startsWith_head 'L' (S "ETRA CHICA / RIESGOS:") (pyStrip l) h
  simp only [analysisStep]
  rw [ht]
  have hR : pyStartsWith (S "RESUMEN:") ('L' :: t) = false :=
    not_startsWith_of_head_ne 'R' 'L' (S "ESUMEN:") t (by decide)
  rw [if_neg (bool_not_true hR)]
  rw [if_pos (ht ▸ h)]

/-- A `PRÓXIMOS PASOS:` header line only switches the section. -/
lemma analysisStep_header_acciones (acc : AnalysisAcc) (l : Str)
    (h : pyStartsWith (S "PRÓXIMOS PASOS:") (pyStrip l) = true) :
    analysisStep acc l = { acc with current_section := some .acciones } := by
  obtain ⟨t, ht⟩ := startsWith_head 'P' (S "RÓXIMOS PASOS:") (pyStrip l) h
  simp only [analysisStep]
  rw [ht]
  have hR : pyStartsWith (S "RESUMEN:") ('P' :: t) = false :=
    not_startsWith_of_head_ne 'R' 'P' (S "ESUMEN:") t (by decide)
  have hL : pyStartsWith (S "LETRA CHICA / RIESGOS:") ('P' :: t) = false :=
    not_startsWith_of_head_ne 'L' 'P' (S "ETRA CHICA / RIESGOS:") t (by decide)
  rw [if_neg (bool_not_true hR)]
  rw [if_neg (bool_not_true hL)]
  rw [if_pos (ht ▸ h)]

/-- A numbered summary line `k. payload` (k in 1..3) appends a bullet-prefixed
payload to the accumulated explanation while in the RESUMEN section. -/
lemma analysisStep_resumen_content (acc : AnalysisAcc) (k : Char) (s : Str)
    (hsec : acc.current_section = some AnalysisSection.resumen)
    (hk : k = '1' ∨ k = '2' ∨ k = '3')
    (hp : plainPayload s) :
    analysisStep acc (k :: '.' :: ' ' :: s) =
      { acc with simplified_explanation :=
          (if acc.simplified_explanation ≠ [] then acc.simplified_explanation ++ S "\n"
           else acc.simplified_explanation) ++ S "• " ++ s } := by
  obtain ⟨e, r, a, sec⟩ := acc
  simp only at hsec
  subst hsec
  obtain ⟨hs, c, t, hst, hc1, hc2⟩ := hp
  subst hst
  have hstrip : pyStrip (k :: '.' :: ' ' :: c :: t) = k :: '.' :: ' ' :: c :: t := by
    have hkns : pyIsSpace k = false := by rcases hk with rfl | rfl | rfl <;> rfl
    exact strip_marker_prepend k ['.', ' '] (c :: t) hkns hs (List.cons_ne_nil c t)
  have hlsc : pyLStripChars resumenMarkers (k :: '.' :: ' ' :: c :: t) = c :: t := by
    have hkm : k ∈ resumenMarkers := by rcases hk with rfl | rfl | rfl <;> decide
    rw [lstripChars_step _ _ _ hkm, lstripChars_step _ _ _ (by decide),
      lstripChars_step _ _ _ (by decide), lstripChars_stop _ _ _ hc1]
  have hkR : k ≠ 'R' := by rcases hk with rfl | rfl | rfl <;> decide
  have hkL : k ≠ 'L' := by rcases hk with rfl | rfl | rfl <;> decide
  have hkP : k ≠ 'P' := by rcases hk with rfl | rfl | rfl <;> decide
  have hA : pyStartsWith (S "RESUMEN:") (k :: '.' :: ' ' :: c :: t) = false :=
    not_startsWith_of_head_ne 'R' k (S "ESUMEN:") ('.' :: ' ' :: c :: t) hkR
  have hB : pyStartsWith (S "LETRA CHICA / RIESGOS:") (k :: '.' :: ' ' :: c :: t) = false :=
    not_startsWith_of_head_ne 'L' k (S "ETRA CHICA / RIESGOS:") ('.' :: ' ' :: c :: t) hkL
  have hC : pyStartsWith (S "PRÓXIMOS PASOS:") (k :: '.' :: ' ' :: c :: t) = false :=
    not_startsWith_of_head_ne 'P' k (S "RÓXIMOS PASOS:") ('.' :: ' ' :: c :: t) hkP
  have hm : resumenLineMatches (k :: '.' :: ' ' :: c :: t) = true := by
    rcases hk with rfl | rfl | rfl <;> rfl
  simp only [analysisStep]
  rw [hstrip]
  rw [if_neg (bool_not_true hA), if_neg (bool_not_true hB), if_neg (bool_not_true hC)]
  rw [if_pos hm]
  rw [hlsc, hs]
  rw [if_pos (List.cons_ne_nil c t)]

/-- A bullet line `- payload` appends the payload to `identified_risks` while
in the RISKS section. -/
lemma analysisStep_riesgos_content (acc : AnalysisAcc) (s : Str)
    (hsec : acc.current_section = some AnalysisSection.riesgos)
    (hp : plainPayload s) :
    analysisStep acc ('-' :: ' ' :: s) =
      { acc with identified_risks := acc.identified_risks ++ [s] } := by
  obtain ⟨e, r, a, sec⟩ := acc
  simp only at hsec
  subst hsec
  obtain ⟨hs, c, t, hst, hc1, hc2⟩ := hp
  subst hst
  have hstrip : pyStrip ('-' :: ' ' :: c :: t) = '-' :: ' ' :: c :: t :=
    strip_marker_prepend '-' [' '] (c :: t) rfl hs (List.cons_ne_nil c t)
  have hlsc : pyLStripChars bulletMarkers ('-' :: ' ' :: c :: t) = c :: t := by
    rw [lstripChars_step _ _ _ (by decide), lstripChars_step _ _ _ (by decide),
      lstripChars_stop _ _ _ hc2]
  have hA : pyStartsWith (S "RESUMEN:") ('-' :: ' ' :: c :: t) = false :=
    not_startsWith_of_head_ne 'R' '-' (S "ESUMEN:") (' ' :: c :: t) (by decide)
  have hB : pyStartsWith (S "LETRA CHICA / RIESGOS:") ('-' :: ' ' :: c :: t) = false :=
    not_startsWith_of_head_ne 'L' '-' (S "ETRA CHICA / RIESGOS:") (' ' :: c :: t) (by decide)
  have hC : pyStartsWith (S "PRÓXIMOS PASOS:") ('-' :: ' ' :: c :: t) = false :=
    not_startsWith_of_head_ne 'P' '-' (S "RÓXIMOS PASOS:") (' ' :: c :: t) (by decide)
  have hm : (!('-' :: ' ' :: c :: t).isEmpty &&
      (pyStartsWith (S "-") ('-' :: ' ' :: c :: t) ||
       pyStartsWith (S "*") ('-' :: ' ' :: c :: t))) = true := rfl
  simp only [analysisStep]
  rw [hstrip]
  rw [if_neg (bool_not_true hA), if_neg (bool_not_true hB), if_neg (bool_not_true hC)]
  rw [if_pos hm]
  rw [hlsc, hs]
  rw [if_pos (List.cons_ne_nil c t)]

/-- A bullet line `- payload` appends the payload to `action_items` while in
the ACTIONS section. -/
lemma analysisStep_acciones_content (acc : AnalysisAcc) (s : Str)
    (hsec : acc.current_section = some AnalysisSection.acciones)
    (hp : plainPayload s) :
    analysisStep acc ('-' :: ' ' :: s) =
      { acc with action_items := acc.action_items ++ [s] } := by
  obtain ⟨e, r, a, sec⟩ := acc
  simp only at hsec
  subst hsec
  obtain ⟨hs, c, t, hst, hc1, hc2⟩ := hp
  subst hst
  have hstrip : pyStrip ('-' :: ' ' :: c :: t) = '-' :: ' ' :: c :: t :=
    strip_marker_prepend '-' [' '] (c :: t) rfl hs (List.cons_ne_nil c t)
  have hlsc : pyLStripChars bulletMarkers ('-' :: ' ' :: c :: t) = c :: t := by
    rw [lstripChars_step _ _ _ (by decide), lstripChars_step _ _ _ (by decide),
      lstripChars_stop _ _ _ hc2]
  have hA : pyStartsWith (S "RESUMEN:") ('-' :: ' ' :: c :: t) = false :=
    not_startsWith_of_head_ne 'R' '-' (S "ESUMEN:") (' ' :: c :: t) (by decide)
  have hB : pyStartsWith (S "LETRA CHICA / RIESGOS:") ('-' :: ' ' :: c :: t) = false :=
    not_startsWith_of_head_ne 'L' '-' (S "ETRA CHICA / RIESGOS:") (' ' :: c :: t) (by decide)
  have hC : pyStartsWith (S "PRÓXIMOS PASOS:") ('-' :: ' ' :: c :: t) = false :=
    not_startsWith_of_head_ne 'P' '-' (S "RÓXIMOS PASOS:") (' ' :: c :: t) (by decide)
  have hm : (!('-' :: ' ' :: c :: t).isEmpty &&
      (pyStartsWith (S "-") ('-' :: ' ' :: c :: t) ||
       pyStartsWith (S "*") ('-' :: ' ' :: c :: t))) = true := rfl
  simp only [analysisStep]
  rw [hstrip]
  rw [if_neg (bool_not_true hA), if_neg (bool_not_true hB), if_neg (bool_not_true hC)]
  rw [if_pos hm]
  rw [hlsc, hs]
  rw [if_pos (List.cons_ne_nil c t)]

/-- C6: the analysis grammar is a section-state parser in which each of the
three header lines only transitions the section state and contributes no
content, and a canonical model output made of a SUMMARY section with 3
numbered payload lines, a RISKS section with 2 bullet payload lines and an
ACTIONS section with 1 bullet payload line parses to a 3-bullet explanation
joined by newlines, 2 risks and 1 action, in source order with the list
markers stripped. -/
theorem C6_analysis_grammar :
    (∀ (acc : AnalysisAcc) (l : Str),
       pyStartsWith (S "RESUMEN:") (pyStrip l) = true →
       analysisStep acc l = { acc with current_section := some AnalysisSection.resumen }) ∧
    (∀ (acc : AnalysisAcc) (l : Str),
       pyStartsWith (S "LETRA CHICA / RIESGOS:") (pyStrip l) = true →
       analysisStep acc l = { acc with current_section := some AnalysisSection.riesgos }) ∧
    (∀ (acc : AnalysisAcc) (l : Str),
       pyStartsWith (S "PRÓXIMOS PASOS:") (pyStrip l) = true →
       analysisStep acc l = { acc with current_section := some AnalysisSection.acciones }) ∧
    (∀ s1 s2 s3 r1 r2 a1 : Str,
       plainPayload s1 → plainPayload s2 → plainPayload s3 →
       plainPayload r1 → plainPayload r2 → plainPayload a1 →
       parseAnalysisLines
         [S "RESUMEN:", S "1. " ++ s1, S "2. " ++ s2, S "3. " ++ s3,
          S "LETRA CHICA / RIESGOS:", S "- " ++ r1, S "- " ++ r2,
          S "PRÓXIMOS PASOS:", S "- " ++ a1] =
         { simplified_explanation := S "• " ++ s1 ++ S "\n• " ++ s2 ++ S "\n• " ++ s3,
           identified_risks := [r1, r2], action_items := [a1],
           current_section := some AnalysisSection.acciones }) := by
  refine ⟨analysisStep_header_resumen, analysisStep_header_riesgos,
    analysisStep_header_acciones, ?_⟩
  intro s1 s2 s3 r1 r2 a1 hp1 hp2 hp3 hq1 hq2 hq3
  have hbul : ∀ x : Str, (S "• " ++ x : Str) ≠ [] :=
    fun x => List.cons_ne_nil '•' (' ' :: x)
  have hbul3 : ∀ x y z : Str, (S "• " ++ x ++ y ++ z : Str) ≠ [] :=
    fun x y z => List.cons_ne_nil '•' (((' ' :: x) ++ y) ++ z)
  have e1 : analysisStep ⟨[], [], [], none⟩ (S "RESUMEN:") =
      (⟨[], [], [], some AnalysisSection.resumen⟩ : AnalysisAcc) := by
    rw [analysisStep_header_resumen _ _ (by decide)]
  have e2 : analysisStep ⟨[], [], [], some AnalysisSection.resumen⟩
      ('1' :: '.' :: ' ' :: s1) =
      (⟨S "• " ++ s1, [], [], some AnalysisSection.resumen⟩ : AnalysisAcc) := by
    rw [analysisStep_resumen_content _ '1' s1 rfl (Or.inl rfl) hp1]
    rfl
  have e3 : analysisStep ⟨S "• " ++ s1, [], [], some AnalysisSection.resumen⟩
      ('2' :: '.' :: ' ' :: s2) =
      (⟨S "• " ++ s1 ++ S "\n• " ++ s2, [], [],
        some AnalysisSection.resumen⟩ : AnalysisAcc) := by
    rw [analysisStep_resumen_content _ '2' s2 rfl (Or.inr (Or.inl rfl)) hp2]
    rw [if_pos (hbul s1)]
    rw [List.append_assoc (S "• " ++ s1) (S "\n") (S "• ")]
    rw [show (S "\n" ++ S "• " : Str) = S "\n• " from rfl]
  have e4 : analysisStep
      ⟨S "• " ++ s1 ++ S "\n• " ++ s2, [], [], some AnalysisSection.resumen⟩
      ('3' :: '.' :: ' ' :: s3) =
      (⟨S "• " ++ s1 ++ S "\n• " ++ s2 ++ S "\n• " ++ s3, [], [],
        some AnalysisSection.resumen⟩ : AnalysisAcc) := by
    rw [analysisStep_resumen_content _ '3' s3 rfl (Or.inr (Or.inr rfl)) hp3]
    rw [if_pos (hbul3 s1 (S "\n• ") s2)]
    rw [List.append_assoc (S "• " ++ s1 ++ S "\n• " ++ s2) (S "\n") (S "• ")]
    rw [show (S "\n" ++ S "• " : Str) = S "\n• " from rfl]
  have e5 : analysisStep
      ⟨S "• " ++ s1 ++ S "\n• " ++ s2 ++ S "\n• " ++ s3, [], [],
        some AnalysisSection.resumen⟩ (S "LETRA CHICA / RIESGOS:") =
      (⟨S "• " ++ s1 ++ S "\n• " ++ s2 ++ S "\n• " ++ s3, [], [],
        some AnalysisSection.riesgos⟩ : AnalysisAcc) := by
    rw [analysisStep_header_riesgos _ _ (by decide)]
  have e6 : analysisStep
      ⟨S "• " ++ s1 ++ S "\n• " ++ s2 ++ S "\n• " ++ s3, [], [],
        some AnalysisSection.riesgos⟩ ('-' :: ' ' :: r1) =
      (⟨S "• " ++ s1 ++ S "\n• " ++ s2 ++ S "\n• " ++ s3, [r1], [],
        some AnalysisSection.riesgos⟩ : AnalysisAcc) := by
    rw [analysisStep_riesgos_content _ r1 rfl hq1]
    rfl
  have e7 : analysisStep
      ⟨S "• " ++ s1 ++ S "\n• " ++ s2 ++ S "\n• " ++ s3, [r1], [],
        some AnalysisSection.riesgos⟩ ('-' :: ' ' :: r2) =
      (⟨S "• " ++ s1 ++ S "\n• " ++ s2 ++ S "\n• " ++ s3, [r1, r2], [],
        some AnalysisSection.riesgos⟩ : AnalysisAcc) := by
    rw [analysisStep_riesgos_content _ r2 rfl hq2]
    rfl
  have e8 : analysisStep
      ⟨S "• " ++ s1 ++ S "\n• " ++ s2 ++ S "\n• " ++ s3, [r1, r2], [],
        some AnalysisSection.riesgos⟩ (S "PRÓXIMOS PASOS:") =
      (⟨S "• " ++ s1 ++ S "\n• " ++ s2 ++ S "\n• " ++ s3, [r1, r2], [],
        some AnalysisSection.acciones⟩ : AnalysisAcc) := by
    rw [analysisStep_header_acciones _ _ (by decide)]
  have e9 : analysisStep
      ⟨S "• " ++ s1 ++ S "\n• " ++ s2 ++ S "\n• " ++ s3, [r1, r2], [],
        some AnalysisSection.acciones⟩ ('-' :: ' ' :: a1) =
      (⟨S "• " ++ s1 ++ S "\n• " ++ s2 ++ S "\n• " ++ s3, [r1, r2], [a1],
        some AnalysisSection.acciones⟩ : AnalysisAcc) := by
    rw [analysisStep_acciones_content _ a1 rfl hq3]
    rfl
  show List.foldl analysisStep ⟨[], [], [], none⟩
    [S "RESUMEN:", '1' :: '.' :: ' ' :: s1, '2' :: '.' :: ' ' :: s2,
     '3' :: '.' :: ' ' :: s3, S "LETRA CHICA / RIESGOS:", '-' :: ' ' :: r1,
     '-' :: ' ' :: r2, S "PRÓXIMOS PASOS:", '-' :: ' ' :: a1] = _
  rw [List.foldl_cons, e1, List.foldl_cons, e2, List.foldl_cons, e3,
    List.foldl_cons, e4, List.foldl_cons, e5, List.foldl_cons, e6,
    List.foldl_cons, e7, List.foldl_cons, e8, List.foldl_cons, e9,
    List.foldl_nil]

/-- Constructor for `plainPayload`. -/
lemma plainPayload_intro (c : Char) (t : Str) (h1 : pyStrip (c :: t) = c :: t)
    (h2 : c ∉ resumenMarkers) (h3 : c ∉ bulletMarkers) : plainPayload (c :: t) :=
  ⟨h1, c, t, rfl, h2, h3⟩

/-- Witness for C6 at fully concrete payloads (3 numbered summary lines, 2
risk bullets, 1 action bullet). -/
theorem C6_analysis_witness :
    parseAnalysisLines
      [S "RESUMEN:", S "1. " ++ S "Punto uno", S "2. " ++ S "Punto dos",
       S "3. " ++ S "Punto tres", S "LETRA CHICA / RIESGOS:",
       S "- " ++ S "Riesgo uno", S "- " ++ S "Riesgo dos",
       S "PRÓXIMOS PASOS:", S "- " ++ S "Accion final"] =
      { simplified_explanation :=
          S "• " ++ S "Punto uno" ++ S "\n• " ++ S "Punto dos" ++ S "\n• " ++ S "Punto tres",
        identified_risks := [S "Riesgo uno", S "Riesgo dos"],
        action_items := [S "Accion final"],
        current_section := some AnalysisSection.acciones } :=
  (C6_analysis_grammar).2.2.2 (S "Punto uno") (S "Punto dos") (S "Punto tres")
    (S "Riesgo uno") (S "Riesgo dos") (S "Accion final")
    (plainPayload_intro 'P' (S "unto uno") (by decide) (by decide) (by decide))
    (plainPayload_intro 'P' (S "unto dos") (by decide) (by decide) (by decide))
    (plainPayload_intro 'P' (S "unto tres") (by decide) (by decide) (by decide))
    (plainPayload_intro 'R' (S "iesgo uno") (by decide) (by decide) (by decide))
    (plainPayload_intro 'R' (S "iesgo dos") (by decide) (by decide) (by decide))
    (plainPayload_intro 'A' (S "ccion final") (by decide) (by decide) (by decide))

/-- A run of `n` consecutive copies of `c` occurs somewhere in `s`. This is the
specification-side reading of check 4 of the gate ("any run of 6 or more
identical consecutive characters exists"). -/
def hasRunOf (n : Nat) (c : Char) (s : Str) : Prop :=
  ∃ t u, t ++ List.replicate n c ++ u = s

/-- Splitting a run occurrence at a cons cell. -/
lemma hasRun_cons (n : Nat) (d x : Char) (l : Str) :
    hasRunOf n d (x :: l) ↔
      (∃ u, List.replicate n d ++ u = x :: l) ∨ hasRunOf n d l := by
  constructor
  · rintro ⟨t, u, h⟩
    cases t with
    | nil => exact Or.inl ⟨u, h⟩
    | cons a t' =>
      right
      rw [List.cons_append] at h
      exact ⟨t', u, List.tail_eq_of_cons_eq h⟩
  · rintro (⟨u, h⟩ | ⟨t, u, h⟩)
    · exact ⟨[], u, h⟩
    · exact ⟨x :: t, u, by rw [List.cons_append, List.cons_append, h]⟩

/-- A run inside anything extends to a run inside a larger list on the left. -/
lemma hasRun_append_left (n : Nat) (d : Char) (x l : Str) (h : hasRunOf n d l) :
    hasRunOf n d (x ++ l) := by
  obtain ⟨t, u, h⟩ := h
  refine ⟨x ++ t, u, ?_⟩
  rw [List.append_assoc x t (List.replicate n d),
    List.append_assoc x (t ++ List.replicate n d) u]
  rw [h]

/-- A run of `n` equal characters inside `replicate k c` forces `n ≤ k`. -/
lemma hasRun_replicate_le (n k : Nat) (d c : Char)
    (h : hasRunOf n d (List.replicate k c)) : n ≤ k := by
  obtain ⟨t, u, h⟩ := h
  have := congrArg List.length h
  simp only [List.length_append, List.length_replicate] at this
  omega

/-- A constant-run prefix of `replicate k c ++ e :: rest` with `e ≠ c` cannot
be longer than `k`. -/
lemma prefix_run_le (c e : Char) (rest : Str) (hne : e ≠ c) :
    ∀ n k : Nat, (∃ u, List.replicate n c ++ u = List.replicate k c ++ e :: rest) →
      n ≤ k := by
  intro n
  induction n with
  | zero => intro k _; omega
  | succ m ih =>
    intro k ⟨u, h⟩
    cases k with
    | zero =>
      rw [List.replicate_succ] at h
      simp only [List.replicate_zero, List.nil_append, List.cons_append] at h
      exact absurd (List.head_eq_of_cons_eq h).symm hne
    | succ k' =>
      rw [List.replicate_succ, List.replicate_succ] at h
      simp only [List.cons_append] at h
      have htail := List.tail_eq_of_cons_eq h
      have := ih k' ⟨u, htail⟩
      omega

/-- Boundary analysis: a run of `n` copies of `d` inside
`replicate k c ++ e :: rest` (with `e ≠ c`) lies either inside the replicated
block (forcing `d = c` and `n ≤ k`) or inside `e :: rest`. -/
lemma hasRun_replicate_append (n : Nat) (hn : 0 < n) (c e d : Char) (rest : Str)
    (hne : e ≠ c) :
    ∀ k : Nat, hasRunOf n d (List.replicate k c ++ e :: rest) ↔
      (d = c ∧ n ≤ k) ∨ hasRunOf n d (e :: rest) := by
  intro k
  induction k with
  | zero =>
    simp only [List.replicate_zero, List.nil_append]
    constructor
    · exact fun h => Or.inr h
    · rintro (⟨_, hk⟩ | h)
      · omega
      · exact h
  | succ k' ih =>
    rw [List.replicate_succ, List.cons_append, hasRun_cons]
    constructor
    · rintro (⟨u, hu⟩ | h)
      · obtain ⟨m, rfl⟩ : ∃ m, n = m + 1 := ⟨n - 1, by omega⟩
        rw [List.replicate_succ, List.cons_append] at hu
        have hd : d = c := List.head_eq_of_cons_eq hu
        subst hd
        have htail := List.tail_eq_of_cons_eq hu
        have hm : m ≤ k' := prefix_run_le d e rest hne m k' ⟨u, htail⟩
        exact Or.inl ⟨rfl, by omega⟩
      · rcases ih.mp h with ⟨hd, hk⟩ | h'
        · exact Or.inl ⟨hd, by omega⟩
        · exact Or.inr h'
    · rintro (⟨rfl, hk⟩ | h)
      · left
        refine ⟨List.replicate (k' + 1 - n) d ++ e :: rest, ?_⟩
        rw [← List.append_assoc, ← List.replicate_add]
        have hadd : n + (k' + 1 - n) = k' + 1 := by omega
        rw [hadd, List.replicate_succ, List.cons_append]
      · exact Or.inr (ih.mpr (Or.inr h))

/-- Invariant of the repetition-counting fold: starting from a reachable
accumulator (`current_count` copies of `current_char` just seen, recorded in
`max_repeat` whenever the run has length at least 2), the final `max_repeat`
exceeds 5 exactly when it already does or a 6-run occurs in the replicated
prefix followed by the remaining input. -/
lemma foldRun_gt5 :
    ∀ (s : Str) (c : Char) (k m : Nat), 1 ≤ k → (2 ≤ k → k ≤ m) →
      (5 < (List.foldl runStep ⟨m, some c, k⟩ s).max_repeat ↔
        5 < m ∨ ∃ d, hasRunOf 6 d (List.replicate k c ++ s)) := by
  intro s
  induction s with
  | nil =>
    intro c k m hk1 hk2
    simp only [List.foldl_nil, List.append_nil]
    constructor
    · exact fun h => Or.inl h
    · rintro (h | ⟨d, hr⟩)
      · exact h
      · have h6 : 6 ≤ k := hasRun_replicate_le 6 k d c hr
        have := hk2 (by omega)
        omega
  | cons e s' ih =>
    intro c k m hk1 hk2
    rw [List.foldl_cons]
    by_cases he : e = c
    · subst he
      have hstep : runStep ⟨m, some e, k⟩ e = ⟨max m (k + 1), some e, k + 1⟩ := by
        unfold runStep
        rw [if_pos rfl]
      rw [hstep]
      rw [ih e (k + 1) (max m (k + 1)) (by omega) (fun _ => le_max_right _ _)]
      have hrw : List.replicate (k + 1) e ++ s' = List.replicate k e ++ e :: s' := by
        rw [List.replicate_succ', List.append_assoc]
        rfl
      rw [hrw]
      have habs : 5 < k + 1 → ∃ d, hasRunOf 6 d (List.replicate k e ++ e :: s') := by
        intro h6
        refine ⟨e, ?_⟩
        rw [← hrw]
        refine ⟨[], List.replicate (k + 1 - 6) e ++ s', ?_⟩
        rw [List.nil_append, ← List.append_assoc, ← List.replicate_add]
        have hadd : 6 + (k + 1 - 6) = k + 1 := by omega
        rw [hadd]
      constructor
      · rintro (h | hx)
        · rcases lt_max_iff.mp h with h' | h'
          · exact Or.inl h'
          · exact Or.inr (habs h')
        · exact Or.inr hx
      · rintro (h | hx)
        · exact Or.inl (lt_max_iff.mpr (Or.inl h))
        · exact Or.inr hx
    · have hstep : runStep ⟨m, some c, k⟩ e = ⟨m, some e, 1⟩ := by
        unfold runStep
        rw [if_neg (by simp [he])]
      rw [hstep]
      rw [ih e 1 m (by omega) (by omega)]
      constructor
      · rintro (h | ⟨d, hr⟩)
        · exact Or.inl h
        · refine Or.inr ⟨d, ?_⟩
          exact (hasRun_replicate_append 6 (by omega) c e d s' he k).mpr (Or.inr hr)
      · rintro (h | ⟨d, hr⟩)
        · exact Or.inl h
        · rcases (hasRun_replicate_append 6 (by omega) c e d s' he k).mp hr with ⟨hd, h6⟩ | h'
          · have := hk2 (by omega)
            exact Or.inl (by omega)
          · exact Or.inr ⟨d, h'⟩

/-- The loop's `max_repeat` exceeds 5 exactly when some character occurs 6 or
more times consecutively. -/
lemma maxRepeat_run_iff (s : Str) :
    5 < maxRepeatOf s ↔ ∃ d, hasRunOf 6 d s := by
  cases s with
  | nil =>
    constructor
    · intro h
      exact absurd h (by unfold maxRepeatOf; simp)
    · rintro ⟨d, t, u, h⟩
      have := congrArg List.length h
      simp at this
  | cons c s' =>
    unfold maxRepeatOf
    rw [List.foldl_cons]
    have hstep : runStep ⟨0, none, 0⟩ c = ⟨0, some c, 1⟩ := by
      unfold runStep
      rw [if_neg (by simp)]
    rw [hstep]
    rw [foldRun_gt5 s' c 1 0 (le_refl 1) (by omega)]
    constructor
    · rintro (h | ⟨d, hr⟩)
      · omega
      · exact ⟨d, hr⟩
    · rintro ⟨d, hr⟩
      exact Or.inr ⟨d, hr⟩

/-- Specification-side reading of gate check 1: trimmed length below 50. -/
def specLenFail (s : Str) : Prop := (pyStrip s).length < 50

/-- Specification-side reading of gate check 2: fewer than 10 whitespace-split
words. -/
def specWordFail (s : Str) : Prop := (pySplitWs (pyStrip s)).length < 10

/-- Specification-side reading of gate check 3: alphanumeric-or-whitespace
ratio below 0.5. -/
def specRatioFail (s : Str) : Prop := alnumRatio (pyStrip s) < 0.5

/-- Specification-side reading of gate check 4: some run of 6 or more
identical consecutive characters. -/
def specRunFail (s : Str) : Prop := ∃ c, hasRunOf 6 c (pyStrip s)

/-- Specification-side reading of gate check 5: fewer than 5 distinct
normalized words of length above 2. -/
def specVocabFail (s : Str) : Prop := uniqueWordCount (pySplitWs (pyStrip s)) < 5

/-- A run of `n + 1` identical characters contains a run of `n`. -/
lemma hasRun_succ_weaken (n : Nat) (c : Char) (x : Str)
    (h : hasRunOf (n + 1) c x) : hasRunOf n c x := by
  obtain ⟨t, u, h⟩ := h
  refine ⟨t, c :: u, ?_⟩
  rw [← h, List.replicate_succ']
  simp [List.append_assoc]

/-- The 60-character test string that is 80 percent punctuation (48 of its 60
characters are neither alphanumeric nor whitespace) yet long enough and with
enough words to pass checks 1 and 2. -/
def punct60 : Str := S "a!!!!! b!!!!! c!!!!! !!!!! !!!!! !!!!! !!!!! !!!!! !!!!! !!!"

/-- A text with a run of 7 identical characters that passes the length, word
and ratio checks. -/
def run7Text : Str := S "aaaaaaa bbbbbb cccccc dddddd eeeeee ffffff gggggg hh ii jj kk"

/-- C2: the gate rejects exactly when one of the five specification conditions
holds; the checks are evaluated in the fixed order 1-5 and the reason returned
is that of the first failing check; a 60-character string that is 80 percent
punctuation (and passes checks 1-2) is rejected with the noise reason; and any
text with a run of 7 identical characters that passes the length, word and
ratio checks is rejected with the repetition reason. -/
theorem C2_gate_characterization :
    (∀ s : Str, textQualityGate s ≠ none ↔
      specLenFail s ∨ specWordFail s ∨ specRatioFail s ∨ specRunFail s ∨ specVocabFail s) ∧
    (∀ s : Str, specLenFail s → textQualityGate s = some msgTooShort) ∧
    (∀ s : Str, ¬specLenFail s → specWordFail s → textQualityGate s = some msgFewWords) ∧
    (∀ s : Str, ¬specLenFail s → ¬specWordFail s → specRatioFail s →
      textQualityGate s = some msgNoise) ∧
    (∀ s : Str, ¬specLenFail s → ¬specWordFail s → ¬specRatioFail s → specRunFail s →
      textQualityGate s = some msgRepetition) ∧
    (∀ s : Str, ¬specLenFail s → ¬specWordFail s → ¬specRatioFail s → ¬specRunFail s →
      specVocabFail s → textQualityGate s = some msgFewUnique) ∧
    (punct60.length = 60 ∧
      (punct60.filter (fun c => !pyIsAlnumOrSpace c)).length = 48 ∧
      textQualityGate punct60 = some msgNoise) ∧
    (∀ s : Str, (∃ c, hasRunOf 7 c (pyStrip s)) → ¬specLenFail s → ¬specWordFail s →
      ¬specRatioFail s → textQualityGate s = some msgRepetition) := by
  have hMT : MIN_TEXT_LENGTH = 50 := rfl
  have hMW : MIN_WORDS = 10 := rfl
  have hc1 : ∀ s : Str,
      (pyStrip s = [] ∨ (pyStrip s).length < MIN_TEXT_LENGTH) ↔ specLenFail s := by
    intro s
    unfold specLenFail
    rw [hMT]
    constructor
    · rintro (h | h)
      · rw [h]
        simp
      · exact h
    · exact fun h => Or.inr h
  have hc2 : ∀ s : Str,
      ((pySplitWs (pyStrip s)).length < MIN_WORDS) ↔ specWordFail s := by
    intro s
    unfold specWordFail
    rw [hMW]
  have hc3 : ∀ s : Str, ¬specLenFail s →
      ((0 < (pyStrip s).length ∧ alnumRatio (pyStrip s) < 0.5) ↔ specRatioFail s) := by
    intro s h
    unfold specRatioFail
    constructor
    · exact fun hh => hh.2
    · intro hh
      refine ⟨?_, hh⟩
      unfold specLenFail at h
      omega
  have hc4 : ∀ s : Str, (5 < maxRepeatOf (pyStrip s)) ↔ specRunFail s :=
    fun s => maxRepeat_run_iff (pyStrip s)
  have hdisp2 : ∀ s : Str, ¬specLenFail s → specWordFail s →
      textQualityGate s = some msgFewWords := by
    intro s h1 h2
    exact gate_fewWords s (fun hc => h1 ((hc1 s).mp hc)) ((hc2 s).mpr h2)
  have hdisp3 : ∀ s : Str, ¬specLenFail s → ¬specWordFail s → specRatioFail s →
      textQualityGate s = some msgNoise := by
    intro s h1 h2 h3
    exact gate_noise s (fun hc => h1 ((hc1 s).mp hc)) (fun hc => h2 ((hc2 s).mp hc))
      ((hc3 s h1).mpr h3)
  have hdisp4 : ∀ s : Str, ¬specLenFail s → ¬specWordFail s → ¬specRatioFail s →
      specRunFail s → textQualityGate s = some msgRepetition := by
    intro s h1 h2 h3 h4
    exact gate_repetition s (fun hc => h1 ((hc1 s).mp hc)) (fun hc => h2 ((hc2 s).mp hc))
      (fun hc => h3 ((hc3 s h1).mp hc)) ((hc4 s).mpr h4)
  have hdisp5 : ∀ s : Str, ¬specLenFail s → ¬specWordFail s → ¬specRatioFail s →
      ¬specRunFail s → specVocabFail s → textQualityGate s = some msgFewUnique := by
    intro s h1 h2 h3 h4 h5
    exact gate_fewUnique s (fun hc => h1 ((hc1 s).mp hc)) (fun hc => h2 ((hc2 s).mp hc))
      (fun hc => h3 ((hc3 s h1).mp hc)) (fun hc => h4 ((hc4 s).mp hc)) h5
  refine ⟨?_, ?_, hdisp2, hdisp3, hdisp4, hdisp5, ?_, ?_⟩
  · intro s
    by_cases h1 : specLenFail s
    · constructor
      · exact fun _ => Or.inl h1
      · intro _
        rw [gate_tooShort s ((hc1 s).mpr h1)]
        exact Option.some_ne_none _
    · by_cases h2 : specWordFail s
      · constructor
        · exact fun _ => Or.inr (Or.inl h2)
        · intro _
          rw [hdisp2 s h1 h2]
          exact Option.some_ne_none _
      · by_cases h3 : specRatioFail s
        · constructor
          · exact fun _ => Or.inr (Or.inr (Or.inl h3))
          · intro _
            rw [hdisp3 s h1 h2 h3]
            exact Option.some_ne_none _
        · by_cases h4 : specRunFail s
          · constructor
            · exact fun _ => Or.inr (Or.inr (Or.inr (Or.inl h4)))
            · intro _
              rw [hdisp4 s h1 h2 h3 h4]
              exact Option.some_ne_none _
          · by_cases h5 : specVocabFail s
            · constructor
              · exact fun _ => Or.inr (Or.inr (Or.inr (Or.inr h5)))
              · intro _
                rw [hdisp5 s h1 h2 h3 h4 h5]
                exact Option.some_ne_none _
            · have hnone : textQualityGate s = none :=
                gate_none s (fun hc => h1 ((hc1 s).mp hc)) (fun hc => h2 ((hc2 s).mp hc))
                  (fun hc => h3 ((hc3 s h1).mp hc)) (fun hc => h4 ((hc4 s).mp hc)) h5
              constructor
              · intro hne
                exact absurd hnone hne
              · intro h
                rcases h with h | h | h | h | h <;> contradiction
  · intro s h
    exact gate_tooShort s ((hc1 s).mpr h)
  · refine ⟨by decide, by decide, ?_⟩
    have ha : alnumSpaceCount (pyStrip punct60) = 12 := by decide
    have hb : (pyStrip punct60).length = 60 := by decide
    apply hdisp3
    · unfold specLenFail
      rw [hb]
      decide
    · unfold specWordFail
      decide
    · unfold specRatioFail alnumRatio
      rw [ha, hb]
      norm_num
  · intro s h7 h1 h2 h3
    obtain ⟨c, hr⟩ := h7
    exact hdisp4 s h1 h2 h3 ⟨c, hasRun_succ_weaken 6 c _ hr⟩

/-- Witness for C2: the concrete text with a run of 7 `a` characters (which
passes the length, word and ratio checks) is rejected with the repetition
reason. -/
theorem C2_gate_witness :
    textQualityGate run7Text = some msgRepetition := by
  have ha : alnumSpaceCount (pyStrip run7Text) = 61 := by decide
  have hb : (pyStrip run7Text).length = 61 := by decide
  apply (C2_gate_characterization).2.2.2.2.2.2.2 run7Text
  · exact ⟨'a', [], S " bbbbbb cccccc dddddd eeeeee ffffff gggggg hh ii jj kk", by decide⟩
  · unfold specLenFail
    rw [hb]
    decide
  · unfold specWordFail
    decide
  · unfold specRatioFail alnumRatio
    rw [ha, hb]
    norm_num
